import Mathlib

/-!
Verification of the structured HTTP error model and response-dispatch
protocol of the `httpwrap` repository (Go).

The development shallowly embeds:
* `httperror.HttpError` and its constructor/accessors (src/httperror/errors.go);
* the Go error-value chain and `errors.As` unwrapping used by the wrappers;
* the `net/http` response-writer operations and the `http.Error` plain-text
  error facility as used by the wrappers;
* the dispatch logic of the three router integrations: `httpwrap.Mux.Handle`
  (src/wrapper/httpwrap/http.go), `chiwrap.Router.handleError` (current
  revision) and the legacy `chiwrap.Router.Get` dispatch, and
  `fiberwrap.Wrapper.Handle` (src/wrapper/fiberwrap/fiber.go);
* the RFC 9457 / RFC 7807 problem-detail model, whose implementation file is
  not part of the available sources; those definitions are modelled from the
  specification and are marked as such.
-/

/-! ## Basic Error: `httperror.HttpError` (src/httperror/errors.go) -/

/-- Embedding of `httperror.HttpError`: status code, message, optional
content type (empty string means none). -/
structure HttpError where
  Code : Int
  Message : String
  ContentType : String
deriving DecidableEq

/-- Embedding of `httperror.New(code, message, contentType ...string)`.
The Go variadic parameter is a list; `ct` is the first element when the
list is non-empty and `""` otherwise, exactly as in the source. -/
def HttpError.New (code : Int) (message : String) (contentType : List String) : HttpError :=
  let ct : String :=
    match contentType with
    | [] => ""
    | c :: _ => c
  { Code := code, Message := message, ContentType := ct }

/-- Model of Go `strconv.Itoa`: decimal rendering of an integer, with a
leading minus sign for negative values. -/
def goItoa (i : Int) : String :=
  if i < 0 then "-" ++ Nat.repr i.natAbs else Nat.repr i.toNat

/-- Embedding of `(*HttpError).Error()`: `strconv.Itoa(e.Code) + ": " + e.Message`. -/
def HttpError.Error (e : HttpError) : String :=
  goItoa e.Code ++ ": " ++ e.Message

/-- Embedding of `(*HttpError).StatusCode()`. -/
def HttpError.StatusCode (e : HttpError) : Int :=
  e.Code

/-- Embedding of `(*HttpError).ErrorMessage()`. -/
def HttpError.ErrorMessage (e : HttpError) : String :=
  e.Message

/-- Embedding of `httperror.BadRequest`: `New(400, message)`. -/
def HttpError.BadRequest (message : String) : HttpError :=
  HttpError.New 400 message []

/-! ## Go error values and `errors.As` unwrapping

The wrappers classify an arbitrary `error` value returned by a handler.
A Go error is either a `*HttpError`, some other leaf error (observable
only through its `Error()` string), or a wrapping error whose chain
continues (as produced by `fmt.Errorf` with `%w`). -/

/-- A Go error value as observed by the dispatch code. -/
inductive GoError where
  | httpError (he : HttpError)
  | other (msg : String)
  | wrapped (msg : String) (inner : GoError)
deriving DecidableEq

/-- Model of `errors.As(err, &he)` with `he : *httperror.HttpError`:
walk the error chain and return the first `*HttpError` found, if any. -/
def errorsAsHttpError : GoError → Option HttpError
  | .httpError he => some he
  | .other _ => none
  | .wrapped _ inner => errorsAsHttpError inner

/-- The `Error()` string of a Go error value. For a wrapping error the
wrapper contributes its own text followed by the inner error's text. -/
def GoError.errString : GoError → String
  | .httpError he => he.Error
  | .other msg => msg
  | .wrapped msg inner => msg ++ inner.errString

/-! ## The `net/http` response writer, as driven by the wrappers

Only the operations the dispatch code performs are modelled: setting the
`Content-Type` header, `WriteHeader`, `Write`, and the `http.Error`
facility from the standard library. The recorder keeps the first status
written (later `WriteHeader` calls are ignored, as in `net/http`), the
last `Content-Type` header value set before the write, and the
accumulated body bytes. -/

/-- State of a `net/http` response recorder. `status = none` means no
header has been written yet; `contentType = none` means the dispatch code
set no `Content-Type` header (the router default applies on the wire). -/
structure ResponseState where
  status : Option Int
  contentType : Option String
  body : String
deriving DecidableEq

/-- A response nothing has been written to. -/
def emptyResponse : ResponseState :=
  { status := none, contentType := none, body := "" }

/-- Model of `writer.Header().Set("Content-Type", ct)`. -/
def ResponseState.setContentType (w : ResponseState) (ct : String) : ResponseState :=
  { w with contentType := some ct }

/-- Model of `writer.WriteHeader(code)`: the first call wins. -/
def ResponseState.writeHeader (w : ResponseState) (code : Int) : ResponseState :=
  match w.status with
  | some _ => w
  | none => { w with status := some code }

/-- Model of `writer.Write(b)`: an implicit 200 header if none was
written, then the bytes are appended to the body. -/
def ResponseState.write (w : ResponseState) (s : String) : ResponseState :=
  let w := w.writeHeader 200
  { w with body := w.body ++ s }

/-- Model of the standard library `http.Error(w, msg, code)`: it sets
`Content-Type: text/plain; charset=utf-8`, writes the status header, and
prints the message followed by a single newline (`fmt.Fprintln`). -/
def stdHttpError (w : ResponseState) (msg : String) (code : Int) : ResponseState :=
  ((w.setContentType "text/plain; charset=utf-8").writeHeader code).write (msg ++ "\n")

/-! ## Dispatch adapter: `httpwrap.Mux` (src/wrapper/httpwrap/http.go) -/

/-- Error branch of `httpwrap.Mux.Handle` (http.go lines 29-43): unwrap
to `*HttpError` with `errors.As`; when the content type is non-empty, set
it, write the status and the raw message; when empty, use `http.Error`
with the message and code; otherwise `http.Error` with the error text and
status 500. -/
def muxHandleErr (w : ResponseState) (err : GoError) : ResponseState :=
  match errorsAsHttpError err with
  | some he =>
      if he.ContentType ≠ "" then
        ((w.setContentType he.ContentType).writeHeader he.Code).write he.Message
      else
        stdHttpError w he.Message he.Code
  | none => stdHttpError w err.errString 500

/-- The wrapped handler installed by `httpwrap.Mux.Handle`. A handler is a
function from the response state to the new response state together with
an optional error. The second component of the result is the list of
values passed to the error callback, in order. -/
def muxHandle (handler : ResponseState → ResponseState × Option GoError)
    (w : ResponseState) : ResponseState × List GoError :=
  match handler w with
  | (w, none) => (w, [])
  | (w, some err) => (muxHandleErr w err, [err])

/-- Model of the callback substitution in `httpwrap.NewMux` and
`chiwrap.NewRouter`: a `nil` callback is replaced by a no-op. A callback
is modelled as a state transformer on an arbitrary observer state. -/
def noopCallback {σ : Type} : GoError → σ → σ :=
  fun _ s => s

/-- Embedding of the callback normalization performed by `NewMux` /
`NewRouter`: `if errorCallback == nil { errorCallback = func(err error) {} }`. -/
def resolveCallback {σ : Type} (cb : Option (GoError → σ → σ)) : GoError → σ → σ :=
  match cb with
  | none => noopCallback
  | some f => f

/-! ## Dispatch adapter: `chiwrap.Router` -/

/-- Embedding of the current `chiwrap.Router.handleError` (chiwrap source
accompanying the chi tests, lines 202-218): identical dispatch logic to
`httpwrap.Mux.Handle`. -/
def chiHandleError (w : ResponseState) (err : GoError) : ResponseState :=
  match errorsAsHttpError err with
  | some he =>
      if he.ContentType ≠ "" then
        ((w.setContentType he.ContentType).writeHeader he.Code).write he.Message
      else
        stdHttpError w he.Message he.Code
  | none => stdHttpError w err.errString 500

/-- The wrapped handler installed by the current `chiwrap.Router.Handle` /
`Router.Get`; also returns the list of error-callback invocations. -/
def chiHandle (handler : ResponseState → ResponseState × Option GoError)
    (w : ResponseState) : ResponseState × List GoError :=
  match handler w with
  | (w, none) => (w, [])
  | (w, some err) => (chiHandleError w err, [err])

/-- Embedding of the legacy `chiwrap.Router.Get` error branch
(src/unnamed/part_004 lines 44-57): the `*HttpError` case always goes
through `http.Error` with the message and code, ignoring `ContentType`. -/
def chiLegacyHandleErr (w : ResponseState) (err : GoError) : ResponseState :=
  match errorsAsHttpError err with
  | some he => stdHttpError w he.Message he.Code
  | none => stdHttpError w err.errString 500

/-! ## Dispatch adapter: `fiberwrap.Wrapper` (src/wrapper/fiberwrap/fiber.go) -/

/-- State of a fiber context as driven by the wrapper. The fasthttp
response starts with status 200 and an empty body; `contentType = none`
means the wrapper set no `Content-Type` header (the fasthttp default
`text/plain; charset=utf-8` applies on the wire). -/
structure FiberCtx where
  statusCode : Int
  contentType : Option String
  body : String
deriving DecidableEq

/-- A fresh fiber context. -/
def freshFiberCtx : FiberCtx :=
  { statusCode := 200, contentType := none, body := "" }

/-- Model of `c.Set("Content-Type", v)`. -/
def FiberCtx.setContentType (c : FiberCtx) (v : String) : FiberCtx :=
  { c with contentType := some v }

/-- Model of `c.Status(code)`. -/
def FiberCtx.withStatus (c : FiberCtx) (code : Int) : FiberCtx :=
  { c with statusCode := code }

/-- Model of `c.SendString(s)`: sets the response body to `s`. -/
def FiberCtx.sendString (c : FiberCtx) (s : String) : FiberCtx :=
  { c with body := s }

/-- Error branch of `fiberwrap.Wrapper.Handle` (fiber.go lines 41-52):
unwrap with `errors.As`; set `Content-Type` only when non-empty, then
`c.Status(he.Code).SendString(he.ErrorMessage())`; otherwise
`c.Status(500).SendString(err.Error())`. -/
def fiberHandleErr (c : FiberCtx) (err : GoError) : FiberCtx :=
  match errorsAsHttpError err with
  | some he =>
      let c := if he.ContentType ≠ "" then c.setContentType he.ContentType else c
      (c.withStatus he.Code).sendString he.ErrorMessage
  | none => (c.withStatus 500).sendString err.errString

/-- The wrapped handler installed by `fiberwrap.Wrapper.Handle`. The fiber
wrapper has no error callback, so the invocation list is always empty. -/
def fiberHandle (handler : FiberCtx → FiberCtx × Option GoError)
    (c : FiberCtx) : FiberCtx × List GoError :=
  match handler c with
  | (c, none) => (c, [])
  | (c, some err) => (fiberHandleErr c err, [])

/-! ## Wire classification of a dispatched failure

For comparing the adapters, a failure's dispatch outcome is classified by
the status code, the effective `Content-Type` header (both the `net/http`
and fasthttp defaults are `text/plain; charset=utf-8`), and the body
bytes, starting from a fresh response. -/

/-- Wire-level classification of a response: status, effective
`Content-Type`, body bytes. -/
structure Wire where
  status : Int
  contentType : String
  body : String
deriving DecidableEq

/-- Default content type of both `net/http` (`http.Error` sets it
explicitly) and fasthttp (applied when no header was set). -/
def defaultContentType : String :=
  "text/plain; charset=utf-8"

/-- Wire classification of a `net/http`-style response state. -/
def ResponseState.wire (w : ResponseState) : Wire :=
  { status := w.status.getD 200
    contentType := w.contentType.getD defaultContentType
    body := w.body }

/-- Wire classification of a fiber context. -/
def FiberCtx.wire (c : FiberCtx) : Wire :=
  { status := c.statusCode
    contentType := c.contentType.getD defaultContentType
    body := c.body }

/-- What the `net/http` wrapper puts on the wire for a failure. -/
def muxWire (err : GoError) : Wire :=
  (muxHandleErr emptyResponse err).wire

/-- What the current chi wrapper puts on the wire for a failure. -/
def chiWire (err : GoError) : Wire :=
  (chiHandleError emptyResponse err).wire

/-- What the fiber wrapper puts on the wire for a failure. -/
def fiberWire (err : GoError) : Wire :=
  (fiberHandleErr freshFiberCtx err).wire

/-- The suffix by which the `net/http`/chi body exceeds the fiber body
for a given failure: the plain-text facility's newline on the default
path, nothing on the explicit-content-type path. -/
def plainTextNewline (err : GoError) : String :=
  match errorsAsHttpError err with
  | some he => if he.ContentType ≠ "" then "" else "\n"
  | none => "\n"

/-! ## Problem Details (RFC 9457 current revision, RFC 7807 legacy revision)

The implementation file of `RFC9457Error` / `RFC7807Error` is not among
the available sources (only its tests are), so the definitions below are
modelled from the specification and marked accordingly. -/

/-- A JSON-serializable value, as stored in a problem detail's extension
mapping and produced by serialization. -/
inductive Json where
  | str (s : String)
  | num (n : Int)
  | boolean (b : Bool)
  | null
  | arr (xs : List Json)
  | obj (fields : List (String × Json))

/-- Quoted JSON string with backslash, quote and newline escaped. -/
def renderJsonString (s : String) : String :=
  let esc (c : Char) : String :=
    if c = '\\' then "\\\\"
    else if c = '"' then "\\\""
    else if c = '\n' then "\\n"
    else String.singleton c
  "\"" ++ String.join (s.toList.map esc) ++ "\""

mutual

/-- Modelled from the spec: JSON rendering of a value. Object keys and
string values are quoted; a problem detail serializes as an object. -/
def renderJson : Json → String
  | .str s => renderJsonString s
  | .num n => goItoa n
  | .boolean b => if b then "true" else "false"
  | .null => "null"
  | .arr xs => "[" ++ renderJsonList xs ++ "]"
  | .obj fields => "\x7b" ++ renderJsonFields fields ++ "\x7d"

/-- Comma-separated rendering of a list of JSON values. -/
def renderJsonList : List Json → String
  | [] => ""
  | [x] => renderJson x
  | x :: y :: xs => renderJson x ++ "," ++ renderJsonList (y :: xs)

/-- Comma-separated rendering of the key/value pairs of a JSON object. -/
def renderJsonFields : List (String × Json) → String
  | [] => ""
  | [(k, v)] => renderJsonString k ++ ":" ++ renderJson v
  | (k, v) :: p :: xs =>
      renderJsonString k ++ ":" ++ renderJson v ++ "," ++ renderJsonFields (p :: xs)

end

/-- Modelled from the spec: the current-revision problem detail
(`RFC9457Error`), with the five standard fields and the open extension
mapping (keys unique, insertion order irrelevant). The Go struct field
`Type` is named `typeUri` here because `Type` is reserved in Lean. -/
structure RFC9457Error where
  typeUri : String
  title : String
  status : Int
  detail : String
  instance_ : String
  extensions : List (String × Json)

/-- Modelled from the spec: the legacy-revision problem detail
(`RFC7807Error`), with the identical field set. -/
structure RFC7807Error where
  typeUri : String
  title : String
  status : Int
  detail : String
  instance_ : String
  extensions : List (String × Json)

/-- Modelled from the spec: `NewRFC9457Error(status, title, detail)` with
`type` defaulting to `about:blank` and empty extensions. -/
def NewRFC9457Error (status : Int) (title detail : String) : RFC9457Error :=
  { typeUri := "about:blank", title := title, status := status, detail := detail
    instance_ := "", extensions := [] }

/-- Modelled from the spec: `WithExtension(key, value)` inserts or
overwrites one entry in the extension mapping. -/
def RFC9457Error.WithExtension (p : RFC9457Error) (key : String) (value : Json) : RFC9457Error :=
  let rec put : List (String × Json) → List (String × Json)
    | [] => [(key, value)]
    | (k, v) :: rest => if k = key then (key, value) :: rest else (k, v) :: put rest
  { p with extensions := put p.extensions }

/-- Modelled from the spec: `WithType(type)` sets the `type` field. -/
def RFC9457Error.WithType (p : RFC9457Error) (t : String) : RFC9457Error :=
  { p with typeUri := t }

/-- Modelled from the spec: `WithInstance(instance)` sets the `instance`
field. -/
def RFC9457Error.WithInstance (p : RFC9457Error) (i : String) : RFC9457Error :=
  { p with instance_ := i }

/-- Modelled from the spec: a syntactically valid URI reference for the
purposes of `Validate()`. The spec requires `type`, when not
`about:blank`, to be a syntactically valid URI reference and pins the
scheme-less string `"invalid-uri"` as invalid, while scheme-qualified
references such as `https://...` pass; modelled as: the string starts
with a non-empty URI scheme (a letter followed by letters, digits, `+`,
`-` or `.`) terminated by a colon. -/
def isValidURIReference (s : String) : Bool :=
  let rec schemeRest : List Char → Bool
    | [] => false
    | ':' :: _ => true
    | c :: rest => (c.isAlphanum || c = '+' || c = '-' || c = '.') && schemeRest rest
  match s.toList with
  | [] => false
  | c :: rest => c.isAlpha && schemeRest rest

/-- Modelled from the spec: `Validate()` fails with a Validation error
when `status` is unset (zero value treated as missing) or outside the
inclusive range 100-599, or when `type` is non-empty, not `about:blank`,
and not a syntactically valid URI reference; it succeeds otherwise, and
performs no I/O (it is a pure function of the fields). `none` is
success; `some` carries the violated invariant's description. -/
def RFC9457Error.Validate (p : RFC9457Error) : Option String :=
  if p.status = 0 then
    some "status is required"
  else if p.status < 100 ∨ p.status > 599 then
    some "status must be between 100 and 599"
  else if p.typeUri ≠ "" ∧ p.typeUri ≠ "about:blank" ∧ ¬isValidURIReference p.typeUri then
    some "type must be a valid URI reference"
  else
    none

/-- Modelled from the spec: the serialized top-level JSON object of a
problem detail: the five standard fields, with every extension key/value
flattened at the same level (never nested under an `extensions` key). -/
def RFC9457Error.serializeFields (p : RFC9457Error) : List (String × Json) :=
  [("type", Json.str p.typeUri),
   ("title", Json.str p.title),
   ("status", Json.num p.status),
   ("detail", Json.str p.detail),
   ("instance", Json.str p.instance_)] ++ p.extensions

/-- Modelled from the spec: `Serialize()` produces the JSON document of
the problem detail. -/
def RFC9457Error.Serialize (p : RFC9457Error) : String :=
  renderJson (Json.obj p.serializeFields)

/-- Modelled from the spec: `ToHttpError()` produces a Basic Error with
`code = status`, `message = Serialize()` and content type
`application/problem+json`, via the real `httperror.New`. -/
def RFC9457Error.ToHttpError (p : RFC9457Error) : HttpError :=
  HttpError.New p.status p.Serialize ["application/problem+json"]

/-- Modelled from the spec: `ToRFC7807Error()` produces a legacy-revision
instance with identical field values and a copy of the extension
mapping. -/
def RFC9457Error.ToRFC7807Error (p : RFC9457Error) : RFC7807Error :=
  { typeUri := p.typeUri, title := p.title, status := p.status
    detail := p.detail, instance_ := p.instance_, extensions := p.extensions }

/-! ## Helper lemmas -/

/-- Appending to the empty string is the identity. -/
theorem empty_str_append (s : String) : "" ++ s = s := rfl

/-- The embedded `strconv.Itoa` agrees with Lean's decimal rendering of
integers. -/
theorem goItoa_eq_toString (i : Int) : goItoa i = toString i := by
  unfold goItoa
  cases i with
  | ofNat n =>
      have h : ¬ Int.ofNat n < 0 := by
        rw [Int.ofNat_eq_natCast]; omega
      rw [if_neg h]
      rfl
  | negSucc n =>
      rw [if_pos (Int.negSucc_lt_zero n)]
      rfl

/-! ## Claim theorems -/

/-- C6: for all integer status codes `c` and strings `m`, the Basic Error
built by `New(c, m)` satisfies `StatusCode() = c` and
`ErrorMessage() = m`, and its `Error()` string is the decimal rendering
of `c` followed by `": "` and `m`. -/
theorem hw_basicError_accessors (c : Int) (m : String) :
    (HttpError.New c m []).StatusCode = c
    ∧ (HttpError.New c m []).ErrorMessage = m
    ∧ (HttpError.New c m []).Error = toString c ++ ": " ++ m := by
  refine ⟨rfl, rfl, ?_⟩
  show goItoa c ++ ": " ++ m = toString c ++ ": " ++ m
  rw [goItoa_eq_toString]

/-- C10: the Basic Error built by the variadic `New(code, message,
contentType...)` takes the first variadic argument as its content type
when one is supplied and the empty string otherwise; arguments after the
first do not influence the result. -/
theorem hw_new_contentType_first (code : Int) (m : String) :
    (HttpError.New code m []).ContentType = ""
    ∧ (∀ (c : String) (rest : List String),
        (HttpError.New code m (c :: rest)).ContentType = c)
    ∧ (∀ (c : String) (rest rest' : List String),
        HttpError.New code m (c :: rest) = HttpError.New code m (c :: rest')) :=
  ⟨rfl, fun _ _ => rfl, fun _ _ _ => rfl⟩

/-- C2: the net/http wrapper's dispatch of a Basic Error failure: with a
non-empty content type it sets that `Content-Type`, the status `code`,
and writes `message` byte-for-byte with no trailing newline; with an
empty content type it goes through `http.Error`, yielding
`text/plain; charset=utf-8` and `message` followed by one newline. -/
theorem hw_mux_basicError_dispatch (he : HttpError) :
    muxHandleErr emptyResponse (GoError.httpError he) =
      if he.ContentType = "" then
        { status := some he.Code, contentType := some "text/plain; charset=utf-8",
          body := he.Message ++ "\n" }
      else
        { status := some he.Code, contentType := some he.ContentType,
          body := he.Message } := by
  by_cases h : he.ContentType = "" <;>
    simp [muxHandleErr, errorsAsHttpError, h, stdHttpError, emptyResponse,
      ResponseState.setContentType, ResponseState.writeHeader, ResponseState.write,
      empty_str_append]

/-- C3: a failure that does not unwrap to a Basic Error is dispatched by
all three adapters as a 500 whose body text is the failure's `Error()`
string: the net/http and chi adapters (current and legacy) route it
through the `http.Error` plain-text facility, and the fiber adapter sends
the string directly; nothing beyond the `Error()` string is consulted. -/
theorem hw_unclassified_failure_500 (err : GoError)
    (h : errorsAsHttpError err = none) :
    muxHandleErr emptyResponse err = stdHttpError emptyResponse err.errString 500
    ∧ chiHandleError emptyResponse err = stdHttpError emptyResponse err.errString 500
    ∧ chiLegacyHandleErr emptyResponse err = stdHttpError emptyResponse err.errString 500
    ∧ fiberHandleErr freshFiberCtx err
        = { statusCode := 500, contentType := none, body := err.errString }
    ∧ (muxWire err).status = 500 ∧ (chiWire err).status = 500
    ∧ (fiberWire err).status = 500 := by
  refine ⟨?_, ?_, ?_, ?_, ?_, ?_, ?_⟩ <;>
    simp [muxHandleErr, chiHandleError, chiLegacyHandleErr, fiberHandleErr, h,
      muxWire, chiWire, fiberWire, ResponseState.wire, FiberCtx.wire,
      stdHttpError, emptyResponse, freshFiberCtx, ResponseState.setContentType,
      ResponseState.writeHeader, ResponseState.write, FiberCtx.withStatus,
      FiberCtx.sendString]

/-- Witness for C3 at the failure `errors.New("database gone")`. -/
theorem hw_unclassified_failure_500_witness :
    errorsAsHttpError (GoError.other "database gone") = none
    ∧ fiberHandleErr freshFiberCtx (GoError.other "database gone")
        = { statusCode := 500, contentType := none, body := "database gone" }
    ∧ muxHandleErr emptyResponse (GoError.other "database gone")
        = stdHttpError emptyResponse (GoError.other "database gone").errString 500 :=
  ⟨rfl,
   (hw_unclassified_failure_500 (GoError.other "database gone") rfl).2.2.2.1,
   (hw_unclassified_failure_500 (GoError.other "database gone") rfl).1⟩

/-- C5: when the handler reports success (`nil` error), each wrapper
performs no response mutation of its own — the response is exactly what
the handler produced — and the error callback is never invoked. -/
theorem hw_success_no_mutation
    (handler : ResponseState → ResponseState × Option GoError)
    (fhandler : FiberCtx → FiberCtx × Option GoError)
    (w : ResponseState) (c : FiberCtx)
    (hs : (handler w).2 = none) (hf : (fhandler c).2 = none) :
    muxHandle handler w = ((handler w).1, [])
    ∧ chiHandle handler w = ((handler w).1, [])
    ∧ fiberHandle fhandler c = ((fhandler c).1, []) := by
  refine ⟨?_, ?_, ?_⟩
  · rcases hh : handler w with ⟨w', e⟩
    rw [hh] at hs
    cases e with
    | none => simp [muxHandle, hh]
    | some _ => exact absurd hs (by simp)
  · rcases hh : handler w with ⟨w', e⟩
    rw [hh] at hs
    cases e with
    | none => simp [chiHandle, hh]
    | some _ => exact absurd hs (by simp)
  · rcases hh : fhandler c with ⟨c', e⟩
    rw [hh] at hf
    cases e with
    | none => simp [fiberHandle, hh]
    | some _ => exact absurd hf (by simp)

/-- A handler that writes a 200 `OK` response and reports success. -/
def okHandler : ResponseState → ResponseState × Option GoError :=
  fun w => ((w.writeHeader 200).write "OK", none)

/-- A fiber handler that sends `OK` and reports success. -/
def okFiberHandler : FiberCtx → FiberCtx × Option GoError :=
  fun c => (c.sendString "OK", none)

/-- Witness for C5 at a concrete successful handler. -/
theorem hw_success_no_mutation_witness :
    (okHandler emptyResponse).2 = none
    ∧ (okFiberHandler freshFiberCtx).2 = none
    ∧ muxHandle okHandler emptyResponse = ((okHandler emptyResponse).1, [])
    ∧ fiberHandle okFiberHandler freshFiberCtx = ((okFiberHandler freshFiberCtx).1, []) :=
  ⟨rfl, rfl,
   (hw_success_no_mutation okHandler okFiberHandler emptyResponse freshFiberCtx rfl rfl).1,
   (hw_success_no_mutation okHandler okFiberHandler emptyResponse freshFiberCtx rfl rfl).2.2⟩

/-- C1 counterexample: for the Basic Error `New(400, "name is required")`
(no content type) the net/http adapter and the fiber adapter disagree on
the body bytes — `http.Error` appends a newline, `SendString` does not —
so the three adapters do not produce the same response classification. -/
theorem hw_adapters_differ_cex :
    muxWire (GoError.httpError (HttpError.New 400 "name is required" []))
      ≠ fiberWire (GoError.httpError (HttpError.New 400 "name is required" [])) := by
  decide

/-- C1 amended: for every failure value the net/http and current chi
adapters produce identical wire classifications, and the fiber adapter
agrees on the status code and the Content-Type decision; the body bytes
agree exactly, except that on the plain-text path (empty content type or
unclassified failure) the net/http and chi adapters append a single
trailing newline that the fiber adapter does not. -/
theorem hw_adapters_agree_up_to_newline (err : GoError) :
    muxWire err = chiWire err
    ∧ (muxWire err).status = (fiberWire err).status
    ∧ (muxWire err).contentType = (fiberWire err).contentType
    ∧ (muxWire err).body = (fiberWire err).body ++ plainTextNewline err := by
  refine ⟨rfl, ?_, ?_, ?_⟩ <;>
  · rcases h : errorsAsHttpError err with _ | he
    · simp [muxWire, fiberWire, plainTextNewline, muxHandleErr, fiberHandleErr, h,
        ResponseState.wire, FiberCtx.wire, stdHttpError, emptyResponse, freshFiberCtx,
        ResponseState.setContentType, ResponseState.writeHeader, ResponseState.write,
        FiberCtx.withStatus, FiberCtx.sendString, defaultContentType, empty_str_append]
    · by_cases hct : he.ContentType = "" <;>
        simp [muxWire, fiberWire, plainTextNewline, muxHandleErr, fiberHandleErr, h, hct,
          ResponseState.wire, FiberCtx.wire, stdHttpError, emptyResponse, freshFiberCtx,
          ResponseState.setContentType, ResponseState.writeHeader, ResponseState.write,
          FiberCtx.withStatus, FiberCtx.sendString, FiberCtx.setContentType,
          HttpError.ErrorMessage, defaultContentType, empty_str_append]

/-- C4 counterexample: the fiber adapter has no observer callback — for
the concrete failing handler returning `errors.New("boom")` the list of
callback invocations recorded by its dispatch is empty, not a single
invocation with the failure value. -/
theorem hw_fiber_no_callback_cex :
    (fiberHandle (fun c => (c, some (GoError.other "boom"))) freshFiberCtx).2
      ≠ [GoError.other "boom"] := by
  decide

/-- C4 amended: on every failure the net/http and chi adapters invoke the
observer callback exactly once, with the original failure value, after
writing the response, and a `nil` callback is replaced by a no-op at
construction; the fiber adapter has no observer callback and never
invokes one. -/
theorem hw_callback_once_amended :
    (∀ (handler : ResponseState → ResponseState × Option GoError)
        (w : ResponseState) (err : GoError),
        (handler w).2 = some err →
          (muxHandle handler w).2 = [err] ∧ (chiHandle handler w).2 = [err])
    ∧ (∀ (fhandler : FiberCtx → FiberCtx × Option GoError) (c : FiberCtx),
        (fiberHandle fhandler c).2 = [])
    ∧ (∀ (σ : Type), resolveCallback (none : Option (GoError → σ → σ)) = noopCallback)
    ∧ (∀ (σ : Type) (f : GoError → σ → σ), resolveCallback (some f) = f) := by
  refine ⟨?_, ?_, fun _ => rfl, fun _ _ => rfl⟩
  · intro handler w err h
    rcases hh : handler w with ⟨w', e⟩
    rw [hh] at h
    cases e with
    | none => exact absurd h (by simp)
    | some e' =>
        simp only [Option.some.injEq] at h
        subst h
        exact ⟨by simp [muxHandle, hh], by simp [chiHandle, hh]⟩
  · intro fhandler c
    rcases hh : fhandler c with ⟨c', e⟩
    cases e <;> simp [fiberHandle, hh]

/-- A wrapped failure whose chain contains a Basic Error: the callback
must receive the wrapper, not the unwrapped Basic Error. -/
def wrappedFailure : GoError :=
  GoError.wrapped "while saving: " (GoError.httpError (HttpError.New 404 "missing" []))

/-- Witness for C4 amended, at a handler failing with a wrapped error:
the callback invocation lists of the net/http and chi adapters hold
exactly the original wrapped value. -/
theorem hw_callback_once_witness :
    ((fun (w : ResponseState) => (w, some wrappedFailure)) emptyResponse).2 = some wrappedFailure
    ∧ (muxHandle (fun w => (w, some wrappedFailure)) emptyResponse).2 = [wrappedFailure]
    ∧ (chiHandle (fun w => (w, some wrappedFailure)) emptyResponse).2 = [wrappedFailure] :=
  ⟨rfl,
   (hw_callback_once_amended.1 (fun w => (w, some wrappedFailure)) emptyResponse wrappedFailure rfl).1,
   (hw_callback_once_amended.1 (fun w => (w, some wrappedFailure)) emptyResponse wrappedFailure rfl).2⟩

/-- C7: `Validate()` on a current-revision problem detail succeeds exactly
when the status lies in the inclusive range 100-599 (the zero value,
treated as a missing status, is outside it) and the `type` field is
empty, exactly `about:blank`, or a syntactically valid URI reference;
being a pure function of the fields, it performs no I/O. -/
theorem hw_rfc9457_validate_iff (p : RFC9457Error) :
    p.Validate = none ↔
      (100 ≤ p.status ∧ p.status ≤ 599
        ∧ (p.typeUri = "" ∨ p.typeUri = "about:blank"
            ∨ isValidURIReference p.typeUri = true)) := by
  unfold RFC9457Error.Validate
  constructor
  · intro h
    split_ifs at h with h1 h2 h3
    push_neg at h2
    refine ⟨by omega, by omega, ?_⟩
    by_cases he : p.typeUri = ""
    · exact Or.inl he
    · by_cases hb : p.typeUri = "about:blank"
      · exact Or.inr (Or.inl hb)
      · refine Or.inr (Or.inr ?_)
        by_contra hv
        exact h3 ⟨he, hb, fun hvv => hv hvv⟩
  · rintro ⟨hlo, hhi, hty⟩
    rw [if_neg (by omega), if_neg (by omega)]
    rw [if_neg ?_]
    rintro ⟨hne, hnb, hnv⟩
    rcases hty with h | h | h
    · exact hne h
    · exact hnb h
    · exact hnv h

/-- C8: `ToHttpError()` on a current-revision problem detail yields a
Basic Error whose code is the problem's status, whose content type is
`application/problem+json`, and whose message is the serialized JSON
object whose top level binds `type`, `title`, `status` (the numeric
status), `detail` and `instance`, and carries every extension key/value
flattened at that same top level. -/
theorem hw_rfc9457_toHttpError_shape (p : RFC9457Error) :
    (p.ToHttpError).StatusCode = p.status
    ∧ (p.ToHttpError).ContentType = "application/problem+json"
    ∧ (p.ToHttpError).Message = renderJson (Json.obj p.serializeFields)
    ∧ List.lookup "type" p.serializeFields = some (Json.str p.typeUri)
    ∧ List.lookup "title" p.serializeFields = some (Json.str p.title)
    ∧ List.lookup "status" p.serializeFields = some (Json.num p.status)
    ∧ List.lookup "detail" p.serializeFields = some (Json.str p.detail)
    ∧ List.lookup "instance" p.serializeFields = some (Json.str p.instance_)
    ∧ (∀ kv, kv ∈ p.extensions → kv ∈ p.serializeFields) := by
  refine ⟨rfl, rfl, rfl, ?_, ?_, ?_, ?_, ?_, ?_⟩
  · simp [RFC9457Error.serializeFields, List.lookup]
  · simp [RFC9457Error.serializeFields, List.lookup]
  · simp [RFC9457Error.serializeFields, List.lookup]
  · simp [RFC9457Error.serializeFields, List.lookup]
  · simp [RFC9457Error.serializeFields, List.lookup]
  · intro kv hkv
    simp [RFC9457Error.serializeFields]
    exact Or.inr (Or.inr (Or.inr (Or.inr (Or.inr hkv))))

/-- C9: converting a current-revision problem detail to the legacy
revision with `ToRFC7807Error()` preserves `type`, `title`, `status`,
`detail`, `instance` and the entire extension mapping unchanged. -/
theorem hw_rfc9457_to_rfc7807_preserves (p : RFC9457Error) :
    (p.ToRFC7807Error).typeUri = p.typeUri
    ∧ (p.ToRFC7807Error).title = p.title
    ∧ (p.ToRFC7807Error).status = p.status
    ∧ (p.ToRFC7807Error).detail = p.detail
    ∧ (p.ToRFC7807Error).instance_ = p.instance_
    ∧ (p.ToRFC7807Error).extensions = p.extensions :=
  ⟨rfl, rfl, rfl, rfl, rfl, rfl⟩
